import Mathlib

/-!
Shallow embedding of the line-length checker `MK_Line_Length_Check_3.24.py`:
the tag normalizer, the bilingual-table locator, the segment analyzer and the
report renderer, together with the Python primitives they rely on
(`str.strip`, list subscripts, slicing, `html.escape`, `int` parsing).
Tables are modelled as lists of rows, rows as lists of cell texts, matching
the document-model boundary described in the design.
-/

namespace MK

/-- ASCII whitespace as stripped by Python `str.strip()`. -/
def pyIsSpace (c : Char) : Bool :=
  c == ' ' || c == '\t' || c == '\n' || c == '\r' || c == Char.ofNat 11 || c == Char.ofNat 12

/-- Python `str.strip()` restricted to ASCII whitespace. -/
def pyStrip (s : String) : String :=
  String.mk (((s.data.dropWhile pyIsSpace).reverse.dropWhile pyIsSpace).reverse)

/-- Python `list.index`: position of the first occurrence. -/
def listIndex (x : String) : List String → Nat
  | [] => 0
  | y :: ys => if y = x then 0 else listIndex x ys + 1

/-- Python `IndexError`; the exception value carries no structured context. -/
inductive PyError where
  | indexError
deriving DecidableEq

/-- Python list subscript `l[i]` for a nonnegative index: the element, or an
`IndexError`. -/
def listGetE {α : Type} (l : List α) (i : Nat) : Except PyError α :=
  match l.get? i with
  | some a => Except.ok a
  | none => Except.error PyError.indexError

/-- The clamped index at which Python slicing `l[:k]` and `l[k:]` cut, for an
`int` bound `k` (negative bounds count from the end). -/
def pySliceIdx (len : Nat) (k : Int) : Nat :=
  if 0 ≤ k then min k.toNat len else len - min (-k).toNat len

/-- The closing delimiter matching each tag opener of the tag pattern in
`normalize_with_linebreaks` (angle, square and curly bracket tags). -/
def tagCloser (c : Char) : Option Char :=
  if c = '<' then some '>'
  else if c = '[' then some ']'
  else if c = Char.ofNat 123 then some (Char.ofNat 125)
  else none

/-- Fuel-indexed leftmost-match substitution performed by `re.sub` with the
tag pattern of `normalize_with_linebreaks`: at an opener whose first matching
closer encloses a nonempty span, the whole span becomes one line break;
otherwise the character is kept and scanning resumes one position later.
Each branch of the pattern excludes its own closer from the span, so the
matched extent is exactly up to the first closer. `subTags` supplies
sufficient fuel. -/
def subTagsFuel : Nat → List Char → List Char
  | 0, l => l
  | _ + 1, [] => []
  | fuel + 1, c :: cs =>
    match tagCloser c with
    | none => c :: subTagsFuel fuel cs
    | some close =>
      if close ∈ cs then
        if (cs.takeWhile (fun d => !(d == close))).length = 0 then
          c :: subTagsFuel fuel cs
        else
          '\n' :: subTagsFuel fuel (cs.drop ((cs.takeWhile (fun d => !(d == close))).length + 1))
      else c :: subTagsFuel fuel cs

/-- The `re.sub` of the tag pattern by a line break over a whole string. -/
def subTags (l : List Char) : List Char := subTagsFuel l.length l

/-- The two sequential replaces normalizing line endings in
`normalize_with_linebreaks`: a carriage return followed by a line feed, and a
lone carriage return, each become a single line feed. -/
def normalizeNewlines : List Char → List Char
  | [] => []
  | '\r' :: '\n' :: rest => '\n' :: normalizeNewlines rest
  | '\r' :: rest => '\n' :: normalizeNewlines rest
  | c :: rest => c :: normalizeNewlines rest

/-- `normalize_with_linebreaks` from the source: empty input stays empty;
otherwise tag spans collapse to line breaks and line endings are made
uniform. -/
def normalize_with_linebreaks (text : String) : String :=
  if text = "" then ""
  else String.mk (normalizeNewlines (subTags text.data))

/-- Python `str.split` on the line-break separator (keeps empty pieces). -/
def splitNl : List Char → List (List Char)
  | [] => [[]]
  | c :: cs =>
    if c = '\n' then [] :: splitNl cs
    else
      match splitNl cs with
      | [] => [[c]]
      | t :: ts => (c :: t) :: ts

/-- Per-character encoding of Python `html.escape` with `quote=True`. -/
def escChar (c : Char) : List Char :=
  if c = '&' then "&amp;".data
  else if c = '<' then "&lt;".data
  else if c = '>' then "&gt;".data
  else if c = '"' then "&quot;".data
  else if c = Char.ofNat 39 then "&#x27;".data
  else [c]

/-- `html.escape` over a character list. -/
def htmlEscapeL : List Char → List Char
  | [] => []
  | c :: cs => escChar c ++ htmlEscapeL cs

/-- Python `html.escape(s, quote=True)`. -/
def htmlEscape (s : String) : String := String.mk (htmlEscapeL s.data)

/-- Modelled from the spec: the rendering environment decodes the escaped
`data-original-html` attribute back into the bytes stored at render time
before handing it to the reset interaction ("a later reset interaction can
restore it verbatim"). The decoder handles exactly the entities that
`html.escape` produces. -/
def decodeEntitiesL : List Char → List Char
  | [] => []
  | c :: cs =>
    if c = '&' then
      if cs.take 4 = ['a', 'm', 'p', ';'] then '&' :: decodeEntitiesL (cs.drop 4)
      else if cs.take 3 = ['l', 't', ';'] then '<' :: decodeEntitiesL (cs.drop 3)
      else if cs.take 3 = ['g', 't', ';'] then '>' :: decodeEntitiesL (cs.drop 3)
      else if cs.take 5 = ['q', 'u', 'o', 't', ';'] then '"' :: decodeEntitiesL (cs.drop 5)
      else if cs.take 5 = ['#', 'x', '2', '7', ';'] then
        Char.ofNat 39 :: decodeEntitiesL (cs.drop 5)
      else c :: decodeEntitiesL cs
    else c :: decodeEntitiesL cs
termination_by l => l.length
decreasing_by
  all_goals simp only [List.length_drop, List.length_cons]
  all_goals omega

/-- Entity decoding over a whole string. -/
def decodeEntities (s : String) : String := String.mk (decodeEntitiesL s.data)

/-- Body of a Python decimal int literal after the first digit: digits, with
underscores allowed only singly and between digits. -/
def intBodyRest : List Char → Bool
  | [] => true
  | c :: cs =>
    if c.isDigit then intBodyRest cs
    else if c = '_' then
      match cs with
      | [] => false
      | d :: ds => d.isDigit && intBodyRest ds
    else false

/-- Numeric value of a digit list. -/
def digitsValue (l : List Char) : Nat :=
  l.foldl (fun a c => a * 10 + (c.toNat - 48)) 0

/-- Unsigned part of Python `int` parsing: at least one digit. -/
def pyIntBody (l : List Char) : Option Nat :=
  match l with
  | [] => none
  | c :: cs =>
    if c.isDigit && intBodyRest cs then
      some (digitsValue ((c :: cs).filter (fun d => !(d == '_'))))
    else none

/-- Python `int(s)` on a decimal string: surrounding ASCII whitespace allowed,
optional sign, ASCII digits with underscores between digits; `none` is the
`ValueError` outcome. -/
def pyInt (s : String) : Option Int :=
  match (pyStrip s).data with
  | '+' :: rest => (pyIntBody rest).map (fun n => (n : Int))
  | '-' :: rest => (pyIntBody rest).map (fun n => -(n : Int))
  | l => (pyIntBody l).map (fun n => (n : Int))

/-- One violation record produced by `analyze_document`. -/
structure Violation where
  id : String
  source : String
  target : String
  max_len : Nat
  segment_len : Nat
  line_lengths : List Nat
  highlighted_target_html : String
deriving DecidableEq

/-- Logical lines of a target text: normalize, then split on line breaks. -/
def target_lines (t : String) : List String :=
  (splitNl (normalize_with_linebreaks t).data).map String.mk

/-- The subset of logical lines that are non-empty after trimming. -/
def non_empty_lines_of (t : String) : List String :=
  (target_lines t).filter (fun l => !(pyStrip l == ""))

/-- The highlighting of one original line in `analyze_document`: an empty
line is a bare break, a line within the limit is escaped verbatim before its
break, a longer line is sliced at the limit with the overflow wrapped in the
overflow span. -/
def highlightLine (char_limit : Int) (line : String) : String :=
  if line = "" then "<br>"
  else if (line.length : Int) ≤ char_limit then htmlEscape line ++ "<br>"
  else
    htmlEscape (String.mk (line.data.take (pySliceIdx line.length char_limit))) ++
    "<span class=\"overflow\">" ++
    htmlEscape (String.mk (line.data.drop (pySliceIdx line.length char_limit))) ++
    "</span><br>"

/-- The highlighted HTML built for a violating segment: every original line
in order, joined. -/
def buildHighlighted (char_limit : Int) (lines : List String) : String :=
  String.join (lines.map (highlightLine char_limit))

/-- The pure part of the per-row loop of `analyze_document`, after the three
cell texts have been read: `none` when the row contributes no violation,
otherwise the violation record. -/
def processRowCore (seg_id src_text trg_text_original : String)
    (char_limit : Int) : Option Violation :=
  let lines := target_lines trg_text_original
  let non_empty_lines := lines.filter (fun l => !(pyStrip l == ""))
  if non_empty_lines = [] then none
  else
    let lengths := non_empty_lines.map String.length
    let max_len := lengths.foldl Nat.max 0
    if (max_len : Int) ≤ char_limit then none
    else
      some {
        id := seg_id
        source := src_text
        target := trg_text_original
        max_len := max_len
        segment_len := lengths.sum
        line_lengths := lengths
        highlighted_target_html := buildHighlighted char_limit lines }

/-- The body of the per-row loop of `analyze_document`: the three cell
subscripts in source order (any failure is an `IndexError`), then the pure
violation decision. -/
def processRow (cells : List String) (char_limit : Int)
    (id_idx src_idx trg_idx : Nat) : Except PyError (Option Violation) := do
  let idCell ← listGetE cells id_idx
  let src_text ← listGetE cells src_idx
  let trg_text_original ← listGetE cells trg_idx
  return processRowCore (pyStrip idCell) src_text trg_text_original char_limit

/-- The row loop of `analyze_document` over the rows after the header. -/
def analyzeRows (rows : List (List String)) (char_limit : Int)
    (id_idx src_idx trg_idx : Nat) : Except PyError (List Violation) :=
  match rows with
  | [] => Except.ok []
  | r :: rs => do
    let ov ← processRow r char_limit id_idx src_idx trg_idx
    let rest ← analyzeRows rs char_limit id_idx src_idx trg_idx
    match ov with
    | some v => return v :: rest
    | none => return rest

/-- Whether a row qualifies as the bilingual header row: its trimmed cells
contain the token "ID" and there are at least three cells. -/
def rowQualifies (row : List String) : Bool :=
  (row.map pyStrip).contains "ID" && decide (3 ≤ (row.map pyStrip).length)

/-- The row scan of `find_bilingual_table` inside one table, carrying the
enumeration index. -/
def findHeaderRow (rows : List (List String)) (idx : Nat) : Option (Nat × Nat) :=
  match rows with
  | [] => none
  | r :: rest =>
    if rowQualifies r then some (idx, listIndex "ID" (r.map pyStrip))
    else findHeaderRow rest (idx + 1)

/-- `find_bilingual_table` from the source: the first table, in document
order, holding a row whose trimmed cells contain "ID" with at least three
cells; `none` models the `(None, None, None)` sentinel. -/
def find_bilingual_table (tables : List (List (List String))) :
    Option (List (List String) × Nat × Nat) :=
  match tables with
  | [] => none
  | t :: rest =>
    match findHeaderRow t 0 with
    | some (ri, ci) => some (t, ri, ci)
    | none => find_bilingual_table rest

/-- `analyze_document` from the source, over the tables of an already loaded
document (loading the DOCX is the external document-model boundary). -/
def analyze_document (tables : List (List (List String))) (char_limit : Int) :
    Except PyError (List Violation) :=
  match find_bilingual_table tables with
  | none => Except.ok []
  | some (table, header_row_index, id_idx) =>
    let src_idx := id_idx + 1
    let trg_idx := src_idx + 1
    let header_cells := (table.getD header_row_index []).map pyStrip
    if header_cells.length ≤ trg_idx then Except.ok []
    else analyzeRows (table.drop (header_row_index + 1)) char_limit id_idx src_idx trg_idx

/-- Literal piece 1 of the target-cell template of build_html_report. -/
def cellPart1 : String :=
  "\n" ++
  "        <div class=\"target-container\" data-original-html=\""

/-- Literal piece 2 of the target-cell template of build_html_report. -/
def cellPart2 : String :=
  "\">\n" ++
  "            <div class=\"target-text\" contenteditable=\"false\">\n" ++
  "                "

/-- Literal piece 3 of the target-cell template of build_html_report. -/
def cellPart3 : String :=
  "\n" ++
  "            </div>\n" ++
  "            <div class=\"target-actions\">\n" ++
  "                <button class=\"icon-btn edit-btn\" title=\"Toggle edit\">\u270F\uFE0F</button>\n" ++
  "                <button class=\"icon-btn reset-btn\" title=\"Reset to original\">\u27F2</button>\n" ++
  "            </div>\n" ++
  "        </div>\n" ++
  "        "

/-- Literal piece 1 of the row template of build_html_report. -/
def rowPart1 : String :=
  "\n" ++
  "        <tr>\n" ++
  "            <td class=\"cell-id\">"

/-- Literal piece 2 of the row template of build_html_report. -/
def rowPart2 : String :=
  "</td>\n" ++
  "            <td class=\"cell-source\">"

/-- Literal piece 3 of the row template of build_html_report. -/
def rowPart3 : String :=
  "</td>\n" ++
  "            <td class=\"cell-target\">"

/-- Literal piece 4 of the row template of build_html_report. -/
def rowPart4 : String :=
  "</td>\n" ++
  "            <td class=\"cell-maxlen\">"

/-- Literal piece 5 of the row template of build_html_report. -/
def rowPart5 : String :=
  "</td>\n" ++
  "            <td class=\"cell-linelens\">"

/-- Literal piece 6 of the row template of build_html_report. -/
def rowPart6 : String :=
  "</td>\n" ++
  "        </tr>\n" ++
  "        "

/-- Literal piece 1 of the page template of build_html_report. -/
def pagePart1 : String :=
  "<!DOCTYPE html>\n" ++
  "<html lang=\"en\">\n" ++
  "<head>\n" ++
  "<meta charset=\"UTF-8\">\n" ++
  "<title>MK Line Length Check - limit "

/-- Literal piece 2 of the page template of build_html_report. -/
def pagePart2 : String :=
  "</title>\n" ++
  "<style>\n" ++
  "    body \x7b\n" ++
  "        margin: 0;\n" ++
  "        padding: 0;\n" ++
  "        font-family: system-ui, -apple-system, BlinkMacSystemFont, \"Segoe UI\", sans-serif;\n" ++
  "        background-color: #050608;\n" ++
  "        color: #f5f5f5;\n" ++
  "    \x7d\n" ++
  "    header \x7b\n" ++
  "        padding: 20px 32px;\n" ++
  "        background: linear-gradient(135deg, #10131a, #151a24);\n" ++
  "        border-bottom: 1px solid #262b36;\n" ++
  "    \x7d\n" ++
  "    h1 \x7b\n" ++
  "        margin: 0 0 4px 0;\n" ++
  "        font-size: 22px;\n" ++
  "        letter-spacing: 0.03em;\n" ++
  "    \x7d\n" ++
  "    .version-pill \x7b\n" ++
  "        display: inline-block;\n" ++
  "        margin-left: 8px;\n" ++
  "        padding: 2px 8px;\n" ++
  "        border-radius: 999px;\n" ++
  "        background: #1f2937;\n" ++
  "        color: #cbd5f5;\n" ++
  "        font-size: 11px;\n" ++
  "        text-transform: uppercase;\n" ++
  "        letter-spacing: 0.08em;\n" ++
  "    \x7d\n" ++
  "    .subheader \x7b\n" ++
  "        font-size: 13px;\n" ++
  "        color: #9aa0b5;\n" ++
  "    \x7d\n" ++
  "    main \x7b\n" ++
  "        padding: 16px 32px 32px 32px;\n" ++
  "    \x7d\n" ++
  "    .summary \x7b\n" ++
  "        margin-bottom: 16px;\n" ++
  "        font-size: 14px;\n" ++
  "        font-weight: 600;\n" ++
  "        color: #e5e7eb;\n" ++
  "    \x7d\n" ++
  "    .table-wrapper \x7b\n" ++
  "        border-radius: 16px;\n" ++
  "        border: 1px solid #1f2933;\n" ++
  "        background: radial-gradient(circle at top left, #111827 0, #020617 45%);\n" ++
  "        box-shadow: 0 14px 40px rgba(0,0,0,0.8);\n" ++
  "        overflow: hidden;\n" ++
  "    \x7d\n" ++
  "    table \x7b\n" ++
  "        width: 100%;\n" ++
  "        border-collapse: collapse;\n" ++
  "        font-size: 13px;\n" ++
  "    \x7d\n" ++
  "    thead \x7b\n" ++
  "        background: linear-gradient(90deg, #111827, #020617);\n" ++
  "    \x7d\n" ++
  "    th, td \x7b\n" ++
  "        padding: 8px 10px;\n" ++
  "        border-bottom: 1px solid #111827;\n" ++
  "        vertical-align: top;\n" ++
  "    \x7d\n" ++
  "    th \x7b\n" ++
  "        text-align: left;\n" ++
  "        font-weight: 600;\n" ++
  "        color: #9ca3af;\n" ++
  "        font-size: 12px;\n" ++
  "        text-transform: uppercase;\n" ++
  "        letter-spacing: 0.08em;\n" ++
  "        white-space: nowrap;\n" ++
  "    \x7d\n" ++
  "    tbody tr:nth-child(even) \x7b\n" ++
  "        background-color: rgba(15,23,42,0.7);\n" ++
  "    \x7d\n" ++
  "    tbody tr:nth-child(odd) \x7b\n" ++
  "        background-color: rgba(3,7,18,0.9);\n" ++
  "    \x7d\n" ++
  "    tbody tr:hover \x7b\n" ++
  "        background-color: rgba(55,65,81,0.8);\n" ++
  "    \x7d\n" ++
  "    .cell-id \x7b\n" ++
  "        width: 60px;\n" ++
  "        font-weight: 600;\n" ++
  "        color: #e5e7eb;\n" ++
  "        white-space: nowrap;\n" ++
  "    \x7d\n" ++
  "    .cell-source \x7b\n" ++
  "        width: 30%;\n" ++
  "        color: #d1d5db;\n" ++
  "    \x7d\n" ++
  "    .cell-target \x7b\n" ++
  "        width: 40%;\n" ++
  "        color: #f9fafb;\n" ++
  "    \x7d\n" ++
  "    .cell-maxlen \x7b\n" ++
  "        width: 90px;\n" ++
  "        text-align: right;\n" ++
  "        font-variant-numeric: tabular-nums;\n" ++
  "        color: #f97316;\n" ++
  "        font-weight: 600;\n" ++
  "    \x7d\n" ++
  "    .cell-linelens \x7b\n" ++
  "        width: 110px;\n" ++
  "        text-align: right;\n" ++
  "        font-variant-numeric: tabular-nums;\n" ++
  "        color: #9ca3af;\n" ++
  "    \x7d\n" ++
  "    .overflow \x7b\n" ++
  "        background-color: #ffff00;\n" ++
  "        color: #000;\n" ++
  "        font-weight: 600;\n" ++
  "        padding: 0 1px;\n" ++
  "    \x7d\n" ++
  "    .footer-note \x7b\n" ++
  "        margin-top: 18px;\n" ++
  "        font-size: 11px;\n" ++
  "        color: #6b7280;\n" ++
  "    \x7d\n" ++
  "    .target-container \x7b\n" ++
  "        position: relative;\n" ++
  "    \x7d\n" ++
  "    .target-text[contenteditable=\"true\"] \x7b\n" ++
  "        outline: 1px dashed #6ec1ff;\n" ++
  "        outline-offset: 2px;\n" ++
  "        background-color: rgba(15, 23, 42, 0.6);\n" ++
  "    \x7d\n" ++
  "    .target-actions \x7b\n" ++
  "        margin-top: 6px;\n" ++
  "        display: flex;\n" ++
  "        gap: 4px;\n" ++
  "        font-size: 11px;\n" ++
  "    \x7d\n" ++
  "    .icon-btn \x7b\n" ++
  "        border: 1px solid #374151;\n" ++
  "        background-color: #111827;\n" ++
  "        color: #e5e7eb;\n" ++
  "        border-radius: 999px;\n" ++
  "        padding: 2px 6px;\n" ++
  "        cursor: pointer;\n" ++
  "        font-size: 11px;\n" ++
  "        line-height: 1;\n" ++
  "    \x7d\n" ++
  "    .icon-btn:hover \x7b\n" ++
  "        background-color: #1f2937;\n" ++
  "    \x7d\n" ++
  "</style>\n" ++
  "<script>\n" ++
  "document.addEventListener(\x27click\x27, function(event) \x7b\n" ++
  "    const editBtn = event.target.closest(\x27.edit-btn\x27);\n" ++
  "    const resetBtn = event.target.closest(\x27.reset-btn\x27);\n" ++
  "\n" ++
  "    if (editBtn) \x7b\n" ++
  "        const container = editBtn.closest(\x27.target-container\x27);\n" ++
  "        if (!container) return;\n" ++
  "        const textDiv = container.querySelector(\x27.target-text\x27);\n" ++
  "        if (!textDiv) return;\n" ++
  "\n" ++
  "        const isEditable = textDiv.getAttribute(\x27contenteditable\x27) === \x27true\x27;\n" ++
  "        if (isEditable) \x7b\n" ++
  "            textDiv.setAttribute(\x27contenteditable\x27, \x27false\x27);\n" ++
  "        \x7d else \x7b\n" ++
  "            textDiv.setAttribute(\x27contenteditable\x27, \x27true\x27);\n" ++
  "            textDiv.focus();\n" ++
  "        \x7d\n" ++
  "    \x7d\n" ++
  "\n" ++
  "    if (resetBtn) \x7b\n" ++
  "        const container = resetBtn.closest(\x27.target-container\x27);\n" ++
  "        if (!container) return;\n" ++
  "        const textDiv = container.querySelector(\x27.target-text\x27);\n" ++
  "        if (!textDiv) return;\n" ++
  "\n" ++
  "        const originalHtml = container.getAttribute(\x27data-original-html\x27);\n" ++
  "        if (originalHtml != null) \x7b\n" ++
  "            textDiv.innerHTML = originalHtml;\n" ++
  "        \x7d\n" ++
  "        textDiv.setAttribute(\x27contenteditable\x27, \x27false\x27);\n" ++
  "    \x7d\n" ++
  "\x7d);\n" ++
  "</script>\n" ++
  "</head>\n" ++
  "<body>\n" ++
  "<header>\n" ++
  "    <div>\n" ++
  "        <h1>MK Line Length Check<span class=\"version-pill\">v"

/-- Literal piece 3 of the page template of build_html_report. -/
def pagePart3 : String :=
  "</span></h1>\n" ++
  "        <div class=\"subheader\">\n" ++
  "            Source file: <strong>"

/-- Literal piece 4 of the page template of build_html_report. -/
def pagePart4 : String :=
  "</strong> \u00B7\n" ++
  "            Limit per line: <strong>"

/-- Literal piece 5 of the page template of build_html_report. -/
def pagePart5 : String :=
  " characters</strong>\n" ++
  "        </div>\n" ++
  "    </div>\n" ++
  "</header>\n" ++
  "<main>\n" ++
  "    <div class=\"summary\">\n" ++
  "        <strong>"

/-- Literal piece 6 of the page template of build_html_report. -/
def pagePart6 : String :=
  "</strong>\n" ++
  "    </div>\n" ++
  "\n" ++
  "    <div class=\"table-wrapper\">\n" ++
  "        <table id=\"resultsTable\">\n" ++
  "            <thead>\n" ++
  "                <tr>\n" ++
  "                    <th>ID</th>\n" ++
  "                    <th>Source</th>\n" ++
  "                    <th>Target (overflow highlighted)</th>\n" ++
  "                    <th>Line length</th>\n" ++
  "                    <th>Segment length</th>\n" ++
  "                </tr>\n" ++
  "            </thead>\n" ++
  "            <tbody>\n" ++
  "                "

/-- Literal piece 7 of the page template of build_html_report. -/
def pagePart7 : String :=
  "\n" ++
  "            </tbody>\n" ++
  "        </table>\n" ++
  "    </div>\n" ++
  "\n" ++
  "    <div class=\"footer-note\">\n" ++
  "        Overflow characters beyond the configured limit are highlighted in yellow.\n" ++
  "    </div>\n" ++
  "</main>\n" ++
  "</body>\n" ++
  "</html>\n"



/-- Tool version string from the source. -/
def VERSION : String := "3.23"

/-- Python `os.path.basename` on a POSIX path. -/
def osBasename (p : String) : String := (p.splitOn "/").getLastD ""

/-- Python `str.split()` with no separator: whitespace-delimited tokens,
empty pieces discarded. -/
def pySplitWs (s : String) : List String :=
  (s.split pyIsSpace).filter (fun t => !(t == ""))

/-- The summary line of `build_html_report`: the explicit no-violation
statement when the list is empty, the count statement otherwise. -/
def summaryText (total_segments : Nat) (char_limit : Int) : String :=
  if total_segments = 0 then
    "NO SEGMENTS EXCEED THE LIMIT OF " ++ toString char_limit ++ " CHARACTERS PER LINE."
  else
    "Found " ++ toString total_segments ++ " segments with at least one line longer than " ++
      toString char_limit ++ " characters."

/-- The hidden escaped copy of the highlighted rendering stored on the target
cell: `html.escape(target_html, quote=True)`. -/
def data_original_html (v : Violation) : String :=
  htmlEscape v.highlighted_target_html

/-- The target cell of a violation row in `build_html_report`: the container
carries the escaped original rendering in `data-original-html`, the visible
text div carries the rendering itself, and the edit and reset buttons
follow. -/
def target_cell_html (v : Violation) : String :=
  cellPart1 ++ data_original_html v ++ cellPart2 ++ v.highlighted_target_html ++ cellPart3

/-- One table row of `build_html_report`: the leading whitespace-delimited
token of the id, the escaped source, the target cell, the maximum line
length and the segment length. -/
def rowHtml (v : Violation) : String :=
  let id_short := if v.id = "" then "" else (pySplitWs v.id).headD ""
  let id_html := htmlEscape id_short
  let src_html := htmlEscape v.source
  rowPart1 ++ id_html ++ rowPart2 ++ src_html ++ rowPart3 ++ target_cell_html v ++
    rowPart4 ++ toString v.max_len ++ rowPart5 ++ toString v.segment_len ++ rowPart6

/-- `build_html_report` from the source, as the content of the report
artifact (writing the file is the external boundary). -/
def build_html_report (violations : List Violation) (char_limit : Int)
    (source_filename : String) : String :=
  let escaped_filename := htmlEscape (osBasename source_filename)
  let total_segments := violations.length
  let summary_text := summaryText total_segments char_limit
  let rows_block := String.intercalate "\n" (violations.map rowHtml)
  pagePart1 ++ toString char_limit ++ pagePart2 ++ VERSION ++ pagePart3 ++
    escaped_filename ++ pagePart4 ++ toString char_limit ++ pagePart5 ++
    summary_text ++ pagePart6 ++ rows_block ++ pagePart7

/-- State of a rendered target cell in the report: its current contents and
whether inline editing is enabled. -/
structure CellState where
  content : String
  editable : Bool

/-- The reviewer interactions the report script reacts to: toggling the edit
mode, editing the cell text while editable, and reset. -/
inductive CellEvent where
  | toggleEdit
  | editTo (s : String)
  | reset

/-- Modelled from the spec: the report-local edit and reset interaction of a
target cell. The script in the report toggles `contenteditable` on the edit
button; editing replaces the visible contents; the reset button assigns the
decoded `data-original-html` attribute (frozen at render time) back to the
cell and leaves editing off. -/
def stepCell (attr : String) (st : CellState) : CellEvent → CellState
  | CellEvent.toggleEdit => { st with editable := !st.editable }
  | CellEvent.editTo s => { st with content := s }
  | CellEvent.reset => { content := decodeEntities attr, editable := false }

/-- A sequence of reviewer interactions applied to a target cell. -/
def runCellEvents (attr : String) (st : CellState) (evs : List CellEvent) : CellState :=
  evs.foldl (stepCell attr) st

/-- The character-limit prompt handling in `main`: the reply is stripped and
parsed by `int`; a parse failure is the rejected (`ValueError`) outcome. -/
def readCharLimit (reply : String) : Option Int := pyInt (pyStrip reply)

/-- The `main` flow after the prompt: with an unparsable character limit the
run stops before analysis (`none`); otherwise the analysis runs with the
parsed value. -/
def runWithCharLimit (tables : List (List (List String))) (reply : String) :
    Option (Except PyError (List Violation)) :=
  match readCharLimit reply with
  | none => none
  | some char_limit => some (analyze_document tables char_limit)

/-- Stated from the spec for comparison with `buildHighlighted`: an empty
line renders as a bare line break; a line at or under the limit is emitted
verbatim, markup-escaped, followed by a line break; a longer line is split
exactly at the limit boundary into an escaped safe prefix and an overflow
suffix, only the suffix wrapped in the overflow class, followed by a line
break. -/
def specRenderLine (limit : Nat) (line : String) : String :=
  if line = "" then "<br>"
  else if line.length ≤ limit then htmlEscape line ++ "<br>"
  else
    htmlEscape (String.mk (line.data.take limit)) ++
    "<span class=\"overflow\">" ++
    htmlEscape (String.mk (line.data.drop limit)) ++
    "</span><br>"

/-- Scenario A document: one bilingual table whose single data row carries
the target text of the spec scenario. -/
def scenarioATables : List (List (List String)) :=
  [[["ID", "Source", "Target"], ["1", "src", "Hello<b>World this is long"]]]

/-- A document whose first data row has too few cells for the target column. -/
def shortRowFirstTables : List (List (List String)) :=
  [[["ID", "Source", "Target"], ["1", "s"], ["2", "s", "t"]]]

/-- A document whose second data row has too few cells for the target
column. -/
def shortRowSecondTables : List (List (List String)) :=
  [[["ID", "Source", "Target"], ["1", "s", "t"], ["2", "s"]]]

/-- A small bilingual document used to exercise the limit prompt handling. -/
def promptDemoTables : List (List (List String)) :=
  [[["ID", "Source", "Target"], ["7", "hi", "abc"]]]


/-! Helper lemmas about the embedded Python primitives. -/

theorem except_ok_bind {e a b : Type} (x : a) (f : a → Except e b) :
    (Except.ok x >>= f) = f x := rfl

theorem except_error_bind {e a b : Type} (err : e) (f : a → Except e b) :
    ((Except.error err : Except e a) >>= f) = Except.error err := rfl

theorem listGetE_ok {a : Type} (l : List a) (i : Nat) (h : i < l.length) (d : a) :
    listGetE l i = Except.ok (l.getD i d) := by
  unfold listGetE
  rw [List.get?_eq_get h, List.getD_eq_get l d h]

theorem listGetE_err {a : Type} (l : List a) (i : Nat) (h : l.length ≤ i) :
    listGetE l i = Except.error PyError.indexError := by
  unfold listGetE
  rw [List.get?_eq_none.mpr h]

theorem processRow_eq_core (cells : List String) (char_limit : Int) (i j k : Nat)
    (hi : i < cells.length) (hj : j < cells.length) (hk : k < cells.length) :
    processRow cells char_limit i j k =
      Except.ok (processRowCore (pyStrip (cells.getD i ""))
        (cells.getD j "") (cells.getD k "") char_limit) := by
  unfold processRow
  rw [listGetE_ok cells i hi "", listGetE_ok cells j hj "", listGetE_ok cells k hk ""]
  rfl

theorem processRow_short (cells : List String) (char_limit : Int) (i j k : Nat)
    (hk : cells.length ≤ k) :
    processRow cells char_limit i j k = Except.error PyError.indexError := by
  unfold processRow
  rcases Nat.lt_or_ge i cells.length with hi | hi
  · rw [listGetE_ok cells i hi "", except_ok_bind]
    rcases Nat.lt_or_ge j cells.length with hj | hj
    · rw [listGetE_ok cells j hj "", except_ok_bind, listGetE_err cells k hk,
        except_error_bind]
    · rw [listGetE_err cells j hj, except_error_bind]
  · rw [listGetE_err cells i hi, except_error_bind]

theorem nat_le_max_left (a b : Nat) : a ≤ Nat.max a b := Nat.le_max_left a b

theorem nat_le_max_right (a b : Nat) : b ≤ Nat.max a b := Nat.le_max_right a b

theorem le_foldl_max : ∀ (l : List Nat) (a : Nat), a ≤ l.foldl Nat.max a := by
  intro l
  induction l with
  | nil => intro a; exact Nat.le_refl a
  | cons c tl ih =>
    intro a
    exact Nat.le_trans (nat_le_max_left a c) (ih (Nat.max a c))

theorem mem_le_foldl_max : ∀ (l : List Nat) (a x : Nat), x ∈ l → x ≤ l.foldl Nat.max a := by
  intro l
  induction l with
  | nil => intro a x hx; cases hx
  | cons c tl ih =>
    intro a x hx
    rcases List.mem_cons.mp hx with rfl | hmem
    · exact Nat.le_trans (nat_le_max_right a x) (le_foldl_max tl (Nat.max a x))
    · exact ih (Nat.max a c) x hmem

theorem foldl_max_eq_or_mem : ∀ (l : List Nat) (a : Nat),
    l.foldl Nat.max a = a ∨ l.foldl Nat.max a ∈ l := by
  intro l
  induction l with
  | nil => intro a; exact Or.inl rfl
  | cons c tl ih =>
    intro a
    rcases ih (Nat.max a c) with h | h
    · rw [List.foldl_cons, h]
      rcases Nat.le_total a c with hac | hca
      · have hmax : Nat.max a c = c := Nat.max_eq_right hac
        rw [hmax]
        exact Or.inr (List.mem_cons_self c tl)
      · have hmax : Nat.max a c = a := Nat.max_eq_left hca
        rw [hmax]
        exact Or.inl rfl
    · refine Or.inr (List.mem_cons_of_mem c ?_)
      rw [List.foldl_cons]
      exact h

theorem foldl_max_zero_mem (l : List Nat) (h : l ≠ []) : l.foldl Nat.max 0 ∈ l := by
  rcases foldl_max_eq_or_mem l 0 with h0 | hmem
  · match l, h with
    | c :: tl, _ =>
      have hc : c ≤ (c :: tl).foldl Nat.max 0 :=
        mem_le_foldl_max (c :: tl) 0 c (List.mem_cons_self c tl)
      rw [h0] at hc
      have : c = 0 := Nat.le_zero.mp hc
      rw [h0, ← this]
      exact List.mem_cons_self c tl
  · exact hmem


theorem takeWhile_append_closer (p : Char → Bool) :
    ∀ (content : List Char) (cl : Char) (rest : List Char),
      (∀ d ∈ content, p d = true) → p cl = false →
      (content ++ cl :: rest).takeWhile p = content := by
  intro content
  induction content with
  | nil =>
    intro cl rest _ hcl
    simp [List.takeWhile_cons, hcl]
  | cons c tl ih =>
    intro cl rest hall hcl
    have hc : p c = true := hall c (List.mem_cons_self c tl)
    simp only [List.cons_append, List.takeWhile_cons, hc, if_true]
    rw [ih cl rest (fun d hd => hall d (List.mem_cons_of_mem c hd)) hcl]

theorem drop_append_cons_length : ∀ (content : List Char) (cl : Char) (rest : List Char),
    (content ++ cl :: rest).drop (content.length + 1) = rest := by
  intro content
  induction content with
  | nil => intro cl rest; rfl
  | cons c tl ih =>
    intro cl rest
    simp only [List.cons_append, List.length_cons]
    rw [List.drop_succ_cons]
    exact ih cl rest

theorem subTagsFuel_congr : ∀ (f1 : Nat) (l : List Char) (f2 : Nat),
    l.length ≤ f1 → l.length ≤ f2 → subTagsFuel f1 l = subTagsFuel f2 l := by
  intro f1
  induction f1 with
  | zero =>
    intro l f2 h1 _
    have hl : l = [] := List.eq_nil_of_length_eq_zero (Nat.le_zero.mp h1)
    subst hl
    cases f2 <;> rfl
  | succ n ih =>
    intro l f2 h1 h2
    cases l with
    | nil => cases f2 <;> rfl
    | cons c cs =>
      cases f2 with
      | zero => simp at h2
      | succ m =>
        simp only [List.length_cons] at h1 h2
        have hcs1 : cs.length ≤ n := Nat.succ_le_succ_iff.mp h1
        have hcs2 : cs.length ≤ m := Nat.succ_le_succ_iff.mp h2
        cases htc : tagCloser c with
        | none =>
          simp only [subTagsFuel, htc]
          rw [ih cs m hcs1 hcs2]
        | some close =>
          simp only [subTagsFuel, htc]
          by_cases hmem : close ∈ cs
          · rw [if_pos hmem, if_pos hmem]
            by_cases hlen : (cs.takeWhile (fun d => !(d == close))).length = 0
            · rw [if_pos hlen, if_pos hlen, ih cs m hcs1 hcs2]
            · rw [if_neg hlen, if_neg hlen]
              have hdrop :
                  (cs.drop ((cs.takeWhile (fun d => !(d == close))).length + 1)).length ≤
                    cs.length := by
                rw [List.length_drop]; omega
              rw [ih _ m (Nat.le_trans hdrop hcs1) (Nat.le_trans hdrop hcs2)]
          · rw [if_neg hmem, if_neg hmem, ih cs m hcs1 hcs2]

theorem subTags_cons_of_not_opener (c : Char) (cs : List Char) (h : tagCloser c = none) :
    subTags (c :: cs) = c :: subTags cs := by
  unfold subTags
  simp only [List.length_cons, subTagsFuel, h]

theorem subTags_tag (op cl : Char) (content rest : List Char)
    (h : tagCloser op = some cl) (hne : content ≠ []) (hmem : cl ∉ content) :
    subTags (op :: (content ++ cl :: rest)) = '\n' :: subTags rest := by
  unfold subTags
  simp only [List.length_cons, subTagsFuel, h]
  have hin : cl ∈ content ++ cl :: rest :=
    List.mem_append_right content (List.mem_cons_self cl rest)
  rw [if_pos hin]
  have htw : (content ++ cl :: rest).takeWhile (fun d => !(d == cl)) = content := by
    refine takeWhile_append_closer _ content cl rest (fun d hd => ?_) (by simp)
    simp
    intro hdc
    exact hmem (hdc ▸ hd)
  rw [htw]
  have hlen : content.length ≠ 0 := fun h0 => hne (List.eq_nil_of_length_eq_zero h0)
  rw [if_neg hlen]
  rw [drop_append_cons_length content cl rest]
  have hrest : rest.length ≤ (content ++ cl :: rest).length := by
    simp only [List.length_append, List.length_cons]
    omega
  rw [subTagsFuel_congr _ rest _ hrest (Nat.le_refl _)]

theorem subTags_append_not_opener : ∀ (pre l : List Char),
    (∀ c ∈ pre, tagCloser c = none) → subTags (pre ++ l) = pre ++ subTags l := by
  intro pre
  induction pre with
  | nil => intro l _; rfl
  | cons c tl ih =>
    intro l hall
    rw [List.cons_append,
      subTags_cons_of_not_opener c (tl ++ l) (hall c (List.mem_cons_self c tl)),
      ih l (fun d hd => hall d (List.mem_cons_of_mem c hd)), List.cons_append]

theorem tagCloser_closer (op cl : Char) (h : tagCloser op = some cl) :
    tagCloser cl = none := by
  unfold tagCloser at h
  split_ifs at h with h1 h2 h3 <;> simp_all <;> subst h <;> decide

theorem subTags_empty_pair (op cl : Char) (rest : List Char)
    (h : tagCloser op = some cl) :
    subTags (op :: cl :: rest) = op :: cl :: subTags rest := by
  have step : subTags (op :: cl :: rest) = op :: subTags (cl :: rest) := by
    unfold subTags
    simp only [List.length_cons, subTagsFuel, h]
    rw [if_pos (List.mem_cons_self cl rest)]
    rw [if_pos (by simp [List.takeWhile_cons])]
  rw [step, subTags_cons_of_not_opener cl rest (tagCloser_closer op cl h)]

theorem string_mk_data (s : String) : String.mk s.data = s := rfl

theorem normalizeNewlines_cons_ne_cr (c : Char) (l : List Char) (h : c ≠ '\r') :
    normalizeNewlines (c :: l) = c :: normalizeNewlines l := by
  rw [normalizeNewlines.eq_def]
  split <;> simp_all

theorem normalizeNewlines_cr_lone (c : Char) (l : List Char) (h : c ≠ '\n') :
    normalizeNewlines ('\r' :: c :: l) = '\n' :: normalizeNewlines (c :: l) := by
  rw [normalizeNewlines.eq_def]
  split
  all_goals try simp_all
  all_goals (rename_i hne heq; exact absurd heq.1.symm hne)

theorem cr_not_mem_normalizeNewlines : ∀ (l : List Char), '\r' ∉ normalizeNewlines l := by
  intro l
  induction l using normalizeNewlines.induct with
  | case1 => simp [normalizeNewlines]
  | case2 rest ih =>
    have e : normalizeNewlines ('\r' :: '\n' :: rest) = '\n' :: normalizeNewlines rest := rfl
    rw [e]
    intro hmem
    rcases List.mem_cons.mp hmem with h | h
    · exact absurd h (by decide)
    · exact ih h
  | case3 rest hshape ih =>
    have e : normalizeNewlines ('\r' :: rest) = '\n' :: normalizeNewlines rest := by
      cases rest with
      | nil => rfl
      | cons c l =>
        have hc : c ≠ '\n' := fun hcn => hshape l (by rw [hcn])
        exact normalizeNewlines_cr_lone c l hc
    rw [e]
    intro hmem
    rcases List.mem_cons.mp hmem with h | h
    · exact absurd h (by decide)
    · exact ih h
  | case4 c rest hshape hne ih =>
    rw [normalizeNewlines_cons_ne_cr c rest (fun hc => hne hc)]
    intro hmem
    rcases List.mem_cons.mp hmem with h | h
    · exact hne h.symm
    · exact ih h

theorem decodeEntitiesL_cons_ne_amp (c : Char) (rest : List Char) (h : c ≠ '&') :
    decodeEntitiesL (c :: rest) = c :: decodeEntitiesL rest := by
  rw [decodeEntitiesL]
  rw [if_neg h]

theorem decodeEntitiesL_htmlEscapeL : ∀ (l : List Char),
    decodeEntitiesL (htmlEscapeL l) = l := by
  intro l
  induction l with
  | nil => simp [htmlEscapeL, decodeEntitiesL]
  | cons c tl ih =>
    show decodeEntitiesL (escChar c ++ htmlEscapeL tl) = c :: tl
    by_cases h1 : c = '&'
    · subst h1
      have e : escChar '&' ++ htmlEscapeL tl =
          '&' :: 'a' :: 'm' :: 'p' :: ';' :: htmlEscapeL tl := rfl
      rw [e, decodeEntitiesL]
      simp [ih]
    · by_cases h2 : c = '<'
      · subst h2
        have e : escChar '<' ++ htmlEscapeL tl =
            '&' :: 'l' :: 't' :: ';' :: htmlEscapeL tl := rfl
        rw [e, decodeEntitiesL]
        simp [ih]
      · by_cases h3 : c = '>'
        · subst h3
          have e : escChar '>' ++ htmlEscapeL tl =
              '&' :: 'g' :: 't' :: ';' :: htmlEscapeL tl := rfl
          rw [e, decodeEntitiesL]
          simp [ih]
        · by_cases h4 : c = '"'
          · subst h4
            have e : escChar '"' ++ htmlEscapeL tl =
                '&' :: 'q' :: 'u' :: 'o' :: 't' :: ';' :: htmlEscapeL tl := rfl
            rw [e, decodeEntitiesL]
            simp [ih]

          · by_cases h5 : c = Char.ofNat 39
            · subst h5
              have e : escChar (Char.ofNat 39) ++ htmlEscapeL tl =
                  '&' :: '#' :: 'x' :: '2' :: '7' :: ';' :: htmlEscapeL tl := rfl
              rw [e, decodeEntitiesL]
              simp [ih]
            · have e : escChar c = [c] := by
                unfold escChar
                rw [if_neg h1, if_neg h2, if_neg h3, if_neg h4, if_neg h5]
              rw [e, List.singleton_append, decodeEntitiesL_cons_ne_amp c _ h1, ih]

theorem decodeEntities_htmlEscape (s : String) : decodeEntities (htmlEscape s) = s := by
  unfold decodeEntities htmlEscape
  rw [show (String.mk (htmlEscapeL s.data)).data = htmlEscapeL s.data from rfl]
  rw [decodeEntitiesL_htmlEscapeL s.data]


theorem non_empty_lines_of_eq (t : String) :
    (target_lines t).filter (fun l => !(pyStrip l == "")) = non_empty_lines_of t := rfl

theorem processRowCore_none_of_empty (seg_id src_text trg : String) (cl : Int)
    (h : non_empty_lines_of trg = []) :
    processRowCore seg_id src_text trg cl = none := by
  simp only [processRowCore, non_empty_lines_of_eq, h, if_pos]

theorem processRowCore_some_iff (seg_id src_text trg : String) (cl : Int) :
    (∃ v, processRowCore seg_id src_text trg cl = some v) ↔
      ∃ m, m ∈ (non_empty_lines_of trg).map String.length ∧
        (∀ x ∈ (non_empty_lines_of trg).map String.length, x ≤ m) ∧ cl < (m : Int) := by
  simp only [processRowCore, non_empty_lines_of_eq]
  by_cases hne : non_empty_lines_of trg = []
  · rw [if_pos hne, hne]
    simp
  · rw [if_neg hne]
    have hLne : (non_empty_lines_of trg).map String.length ≠ [] := by
      simpa using hne
    by_cases hlim :
        ((((non_empty_lines_of trg).map String.length).foldl Nat.max 0 : Nat) : Int) ≤ cl
    · rw [if_pos hlim]
      constructor
      · rintro ⟨v, hv⟩; cases hv
      · rintro ⟨m, hm, hub, hcl⟩
        have h1 : m ≤ ((non_empty_lines_of trg).map String.length).foldl Nat.max 0 :=
          mem_le_foldl_max _ 0 m hm
        have h2 : ((non_empty_lines_of trg).map String.length).foldl Nat.max 0 ≤ m :=
          hub _ (foldl_max_zero_mem _ hLne)
        have : m = ((non_empty_lines_of trg).map String.length).foldl Nat.max 0 :=
          Nat.le_antisymm h1 h2
        subst this
        omega
    · rw [if_neg hlim]
      constructor
      · intro _
        refine ⟨((non_empty_lines_of trg).map String.length).foldl Nat.max 0,
          foldl_max_zero_mem _ hLne, fun x hx => mem_le_foldl_max _ 0 x hx, by omega⟩
      · intro _
        exact ⟨_, rfl⟩

theorem processRowCore_fields (seg_id src_text trg : String) (cl : Int) (v : Violation)
    (h : processRowCore seg_id src_text trg cl = some v) :
    v.id = seg_id ∧ v.source = src_text ∧ v.target = trg ∧
    v.line_lengths = (non_empty_lines_of trg).map String.length ∧
    v.segment_len = ((non_empty_lines_of trg).map String.length).sum ∧
    v.max_len ∈ (non_empty_lines_of trg).map String.length ∧
    (∀ x ∈ (non_empty_lines_of trg).map String.length, x ≤ v.max_len) ∧
    cl < (v.max_len : Int) ∧
    v.highlighted_target_html = buildHighlighted cl (target_lines trg) := by
  simp only [processRowCore, non_empty_lines_of_eq] at h
  by_cases hne : non_empty_lines_of trg = []
  · rw [if_pos hne] at h; cases h
  · rw [if_neg hne] at h
    have hLne : (non_empty_lines_of trg).map String.length ≠ [] := by
      simpa using hne
    by_cases hlim :
        ((((non_empty_lines_of trg).map String.length).foldl Nat.max 0 : Nat) : Int) ≤ cl
    · rw [if_pos hlim] at h; cases h
    · rw [if_neg hlim] at h
      have hv := (Option.some.inj h).symm
      subst hv
      refine ⟨rfl, rfl, rfl, rfl, rfl, foldl_max_zero_mem _ hLne,
        fun x hx => mem_le_foldl_max _ 0 x hx, ?_, rfl⟩
      show cl < ((((non_empty_lines_of trg).map String.length).foldl Nat.max 0 : Nat) : Int)
      omega

theorem analyzeRows_cons_some (r : List String) (rows : List (List String))
    (cl : Int) (i j k : Nat) (v : Violation)
    (h : processRow r cl i j k = Except.ok (some v)) :
    analyzeRows (r :: rows) cl i j k =
      Except.map (fun l => v :: l) (analyzeRows rows cl i j k) := by
  simp only [analyzeRows]
  rw [h]
  simp only [except_ok_bind]
  cases hrest : analyzeRows rows cl i j k with
  | ok L => simp [except_ok_bind, Except.map]
  | error e => simp [except_error_bind, Except.map]

theorem analyzeRows_cons_none (r : List String) (rows : List (List String))
    (cl : Int) (i j k : Nat)
    (h : processRow r cl i j k = Except.ok none) :
    analyzeRows (r :: rows) cl i j k = analyzeRows rows cl i j k := by
  simp only [analyzeRows]
  rw [h]
  simp only [except_ok_bind]
  cases hrest : analyzeRows rows cl i j k with
  | ok L => simp [except_ok_bind]
  | error e => simp [except_error_bind]

theorem analyzeRows_short : ∀ (rows : List (List String)) (cl : Int) (i j k : Nat),
    (∃ r, r ∈ rows ∧ r.length ≤ k) →
    analyzeRows rows cl i j k = Except.error PyError.indexError := by
  intro rows
  induction rows with
  | nil =>
    rintro cl i j k ⟨r, hr, _⟩
    cases hr
  | cons r rs ih =>
    rintro cl i j k ⟨r0, hr0, hlen⟩
    rcases List.mem_cons.mp hr0 with rfl | hmem
    · simp only [analyzeRows]
      rw [processRow_short r0 cl i j k hlen]
      simp only [except_error_bind]
    · simp only [analyzeRows]
      cases hp : processRow r cl i j k with
      | error e =>
        cases e
        simp only [except_error_bind]
      | ok ov =>
        simp only [except_ok_bind]
        rw [ih cl i j k ⟨r0, hmem, hlen⟩]
        simp only [except_error_bind]

theorem findHeaderRow_none_iff : ∀ (rows : List (List String)) (idx : Nat),
    findHeaderRow rows idx = none ↔ ∀ r ∈ rows, rowQualifies r = false := by
  intro rows
  induction rows with
  | nil => intro idx; simp [findHeaderRow]
  | cons r rest ih =>
    intro idx
    simp only [findHeaderRow]
    by_cases hq : rowQualifies r
    · simp [hq]
    · rw [Bool.not_eq_true] at hq
      simp [hq, ih (idx + 1), List.forall_mem_cons]

theorem findHeaderRow_some : ∀ (rows : List (List String)) (idx ri ci : Nat),
    findHeaderRow rows idx = some (ri, ci) →
    ∃ n r, rows.get? n = some r ∧ ri = idx + n ∧ rowQualifies r = true ∧
      ci = listIndex "ID" (r.map pyStrip) ∧
      ∀ n' r', n' < n → rows.get? n' = some r' → rowQualifies r' = false := by
  intro rows
  induction rows with
  | nil => intro idx ri ci h; simp [findHeaderRow] at h
  | cons r rest ih =>
    intro idx ri ci h
    simp only [findHeaderRow] at h
    by_cases hq : rowQualifies r
    · rw [if_pos hq] at h
      have hp := Option.some.inj h
      have hri : idx = ri := congrArg Prod.fst hp
      have hci : listIndex "ID" (r.map pyStrip) = ci := congrArg Prod.snd hp
      refine ⟨0, r, rfl, by omega, hq, hci.symm, ?_⟩
      intro n' r' hn' _
      omega
    · rw [if_neg hq] at h
      obtain ⟨n, r0, hget, hri, hq0, hci, hearlier⟩ := ih (idx + 1) ri ci h
      refine ⟨n + 1, r0, by simpa using hget, by omega, hq0, hci, ?_⟩
      intro n' r' hn' hget'
      cases n' with
      | zero =>
        have : r' = r := by simpa using hget'.symm
        subst this
        exact Bool.not_eq_true _ ▸ hq
      | succ m =>
        refine hearlier m r' (by omega) (by simpa using hget')

theorem find_bilingual_table_none_iff : ∀ (tables : List (List (List String))),
    find_bilingual_table tables = none ↔
      ∀ t ∈ tables, ∀ r ∈ t, rowQualifies r = false := by
  intro tables
  induction tables with
  | nil => simp [find_bilingual_table]
  | cons t rest ih =>
    simp only [find_bilingual_table]
    cases hf : findHeaderRow t 0 with
    | some p =>
      obtain ⟨ri, ci⟩ := p
      constructor
      · intro h; cases h
      · intro hall
        have hnone : findHeaderRow t 0 = none :=
          (findHeaderRow_none_iff t 0).mpr (hall t (List.mem_cons_self t rest))
        rw [hnone] at hf
        cases hf
    | none =>
      rw [ih, List.forall_mem_cons]
      constructor
      · intro h
        exact ⟨(findHeaderRow_none_iff t 0).mp hf, h⟩
      · intro h
        exact h.2

theorem find_bilingual_table_some : ∀ (tables : List (List (List String)))
    (t : List (List String)) (ri ci : Nat),
    find_bilingual_table tables = some (t, ri, ci) →
    ∃ ti, tables.get? ti = some t ∧
      (∀ ti' t', ti' < ti → tables.get? ti' = some t' →
        ∀ r ∈ t', rowQualifies r = false) ∧
      ∃ r, t.get? ri = some r ∧ rowQualifies r = true ∧
        ci = listIndex "ID" (r.map pyStrip) ∧
        (∀ ri' r', ri' < ri → t.get? ri' = some r' → rowQualifies r' = false) := by
  intro tables
  induction tables with
  | nil => intro t ri ci h; cases h
  | cons t0 rest ih =>
    intro t ri ci h
    simp only [find_bilingual_table] at h
    cases hf : findHeaderRow t0 0 with
    | some p =>
      obtain ⟨ri0, ci0⟩ := p
      rw [hf] at h
      have hp := Option.some.inj h
      have ht : t0 = t := congrArg Prod.fst hp
      have hri : ri0 = ri := congrArg (fun q => q.snd.fst) hp
      have hci : ci0 = ci := congrArg (fun q => q.snd.snd) hp
      subst ht; subst hri; subst hci
      obtain ⟨n, r, hget, hn0, hq, hcieq, hearlier⟩ := findHeaderRow_some t0 0 ri0 ci0 hf
      refine ⟨0, rfl, ?_, r, ?_, hq, hcieq, ?_⟩
      · intro ti' t' hti' _
        omega
      · rw [hn0]
        simpa using hget
      · intro ri' r' hri' hget'
        exact hearlier ri' r' (by omega) hget'
    | none =>
      rw [hf] at h
      obtain ⟨ti, hget, hearlier, hrow⟩ := ih t ri ci h
      refine ⟨ti + 1, by simpa using hget, ?_, hrow⟩
      intro ti' t' hti' hget'
      cases ti' with
      | zero =>
        have ht0 : t' = t0 := by
          have := hget'
          simp only [List.get?] at this
          exact (Option.some.inj this).symm
        rw [ht0]
        exact (findHeaderRow_none_iff t0 0).mp hf
      | succ m =>
        exact hearlier m t' (by omega) (by simpa using hget')


theorem analyze_document_of_none (tables : List (List (List String))) (char_limit : Int)
    (h : find_bilingual_table tables = none) :
    analyze_document tables char_limit = Except.ok [] := by
  simp only [analyze_document, h]

theorem analyze_document_insufficient (tables : List (List (List String)))
    (t : List (List String)) (ri ci : Nat) (char_limit : Int)
    (h : find_bilingual_table tables = some (t, ri, ci))
    (hlen : ((t.getD ri []).map pyStrip).length ≤ ci + 2) :
    analyze_document tables char_limit = Except.ok [] := by
  simp only [analyze_document, h]
  rw [if_pos hlen]

theorem analyze_document_run (tables : List (List (List String)))
    (t : List (List String)) (ri ci : Nat) (char_limit : Int)
    (h : find_bilingual_table tables = some (t, ri, ci))
    (hlen : ¬(((t.getD ri []).map pyStrip).length ≤ ci + 2)) :
    analyze_document tables char_limit =
      analyzeRows (t.drop (ri + 1)) char_limit ci (ci + 1) (ci + 2) := by
  simp only [analyze_document, h]
  rw [if_neg hlen]

theorem highlightLine_eq_spec (limit : Nat) (line : String) :
    highlightLine (limit : Int) line = specRenderLine limit line := by
  unfold highlightLine specRenderLine
  by_cases h0 : line = ""
  · rw [if_pos h0, if_pos h0]
  · rw [if_neg h0, if_neg h0]
    by_cases hle : line.length ≤ limit
    · have hle' : (line.length : Int) ≤ (limit : Int) := by exact_mod_cast hle
      rw [if_pos hle', if_pos hle]
    · have hle' : ¬((line.length : Int) ≤ (limit : Int)) := by exact_mod_cast hle
      rw [if_neg hle', if_neg hle]
      have hidx : pySliceIdx line.length (limit : Int) = limit := by
        unfold pySliceIdx
        rw [if_pos (by exact_mod_cast Nat.zero_le limit)]
        have h1 : ((limit : Int)).toNat = limit := Int.toNat_natCast limit
        rw [h1]
        have h2 : limit ≤ line.length := Nat.le_of_lt (Nat.lt_of_not_le hle)
        exact Nat.min_eq_left h2
      rw [hidx]

theorem build_html_report_empty (char_limit : Int) (name : String) :
    build_html_report [] char_limit name =
      (pagePart1 ++ toString char_limit ++ pagePart2 ++ VERSION ++ pagePart3 ++
        htmlEscape (osBasename name) ++ pagePart4 ++ toString char_limit ++ pagePart5) ++
      summaryText 0 char_limit ++ (pagePart6 ++ "" ++ pagePart7) := by
  have hrows : String.intercalate "\n" (([] : List Violation).map rowHtml) = "" := rfl
  simp only [build_html_report, List.length_nil, hrows]
  simp [String.append_assoc]


/-- C1: for every data row (with the three column subscripts in range), the
analyzer emits a violation record if and only if the row's target has a
non-empty (post-trim) logical line whose maximum length exceeds the limit; in
every emitted record `line_lengths` are the per-line counts of the non-empty
lines, `segment_len` is their sum and `max_len` is their maximum; a target of
only tags and whitespace (no non-empty line) yields no violation; and the row
loop appends the record for the row exactly when one is emitted. -/
theorem C1_per_row_violation_iff :
    ∀ (cells : List String) (char_limit : Int) (id_idx src_idx trg_idx : Nat),
    id_idx < cells.length → src_idx < cells.length → trg_idx < cells.length →
    ((∃ v, processRow cells char_limit id_idx src_idx trg_idx = Except.ok (some v)) ↔
        ∃ m, m ∈ (non_empty_lines_of (cells.getD trg_idx "")).map String.length ∧
          (∀ x ∈ (non_empty_lines_of (cells.getD trg_idx "")).map String.length, x ≤ m) ∧
          char_limit < (m : Int))
    ∧ (∀ v, processRow cells char_limit id_idx src_idx trg_idx = Except.ok (some v) →
        v.line_lengths = (non_empty_lines_of (cells.getD trg_idx "")).map String.length ∧
        v.segment_len = ((non_empty_lines_of (cells.getD trg_idx "")).map String.length).sum ∧
        v.max_len ∈ (non_empty_lines_of (cells.getD trg_idx "")).map String.length ∧
        (∀ x ∈ (non_empty_lines_of (cells.getD trg_idx "")).map String.length,
          x ≤ v.max_len) ∧
        char_limit < (v.max_len : Int))
    ∧ (non_empty_lines_of (cells.getD trg_idx "") = [] →
        processRow cells char_limit id_idx src_idx trg_idx = Except.ok none)
    ∧ (∀ v rows, processRow cells char_limit id_idx src_idx trg_idx = Except.ok (some v) →
        analyzeRows (cells :: rows) char_limit id_idx src_idx trg_idx =
          Except.map (fun l => v :: l) (analyzeRows rows char_limit id_idx src_idx trg_idx))
    ∧ (processRow cells char_limit id_idx src_idx trg_idx = Except.ok none →
        ∀ rows, analyzeRows (cells :: rows) char_limit id_idx src_idx trg_idx =
          analyzeRows rows char_limit id_idx src_idx trg_idx) := by
  intro cells cl i j k hi hj hk
  have hpr := processRow_eq_core cells cl i j k hi hj hk
  refine ⟨?_, ?_, ?_, ?_, ?_⟩
  · rw [hpr]
    simp only [Except.ok.injEq]
    exact processRowCore_some_iff _ _ _ cl
  · intro v hv
    rw [hpr] at hv
    have hcv : processRowCore (pyStrip (cells.getD i "")) (cells.getD j "")
        (cells.getD k "") cl = some v := by
      simpa using hv
    obtain ⟨_, _, _, h4, h5, h6, h7, h8, _⟩ :=
      processRowCore_fields _ _ _ cl v hcv
    exact ⟨h4, h5, h6, h7, h8⟩
  · intro hempty
    rw [hpr, processRowCore_none_of_empty _ _ _ cl hempty]
  · intro v rows hv
    exact analyzeRows_cons_some cells rows cl i j k v hv
  · intro hnone rows
    exact analyzeRows_cons_none cells rows cl i j k hnone

/-- Witness for C1 at the Scenario A row with limit 10: the hypotheses hold
and a violation is emitted. -/
theorem C1_per_row_violation_iff_witness :
    ∃ v, processRow ["1", "src", "Hello<b>World this is long"] 10 0 1 2 =
      Except.ok (some v) :=
  ((C1_per_row_violation_iff ["1", "src", "Hello<b>World this is long"] 10 0 1 2
      (by decide) (by decide) (by decide)).1).mpr
    ⟨18, by decide, by decide, by decide⟩

/-- C2: normalize maps empty input to empty output; every matched tag span —
an opener, a non-empty span free of the matching closer, then the closer —
collapses to exactly one line break whatever its length, text without openers
passing through unchanged around it; consecutive square-bracket tags do not
merge; and the line-ending normalization turns every carriage-return/line-feed
pair and every lone carriage return into a single line feed, so the result
never contains a carriage return. -/
theorem C2_normalize_tags_and_newlines :
    (normalize_with_linebreaks "" = "")
    ∧ (∀ (op cl : Char) (content rest : List Char),
        tagCloser op = some cl → content ≠ [] → cl ∉ content →
        subTags (op :: (content ++ cl :: rest)) = '\n' :: subTags rest)
    ∧ (∀ (pre l : List Char), (∀ c ∈ pre, tagCloser c = none) →
        subTags (pre ++ l) = pre ++ subTags l)
    ∧ (normalize_with_linebreaks "[tag1][tag2]" = "\n\n")
    ∧ (∀ l : List Char, '\r' ∉ normalizeNewlines l)
    ∧ (∀ l : List Char, normalizeNewlines ('\r' :: '\n' :: l) = '\n' :: normalizeNewlines l)
    ∧ (∀ (c : Char) (l : List Char), c ≠ '\n' →
        normalizeNewlines ('\r' :: c :: l) = '\n' :: normalizeNewlines (c :: l))
    ∧ (∀ s : String, '\r' ∉ (normalize_with_linebreaks s).data) := by
  refine ⟨rfl,
    fun op cl content rest h hne hmem => subTags_tag op cl content rest h hne hmem,
    fun pre l hall => subTags_append_not_opener pre l hall,
    by decide,
    cr_not_mem_normalizeNewlines,
    fun l => rfl,
    fun c l hc => normalizeNewlines_cr_lone c l hc,
    ?_⟩
  intro s
  unfold normalize_with_linebreaks
  by_cases h : s = ""
  · rw [if_pos h]
    simp
  · rw [if_neg h]
    exact cr_not_mem_normalizeNewlines _

/-- Witness for C2: a concrete angle tag collapses to one line break, an
opener-free prefix passes through, and a lone carriage return becomes a line
feed. -/
theorem C2_normalize_tags_and_newlines_witness :
    subTags ('<' :: (['b'] ++ '>' :: ['x'])) = '\n' :: subTags ['x'] ∧
    subTags (['a'] ++ ['<', 'b', '>']) = ['a'] ++ subTags ['<', 'b', '>'] ∧
    normalizeNewlines ['\r', 'a'] = '\n' :: normalizeNewlines ['a'] :=
  ⟨C2_normalize_tags_and_newlines.2.1 '<' '>' ['b'] ['x']
      (by decide) (by decide) (by decide),
   C2_normalize_tags_and_newlines.2.2.1 ['a'] ['<', 'b', '>'] (by decide),
   C2_normalize_tags_and_newlines.2.2.2.2.2.2.1 'a' [] (by decide)⟩

/-- C3: counterexample — on the Scenario A document with limit 10 the
emitted record has `max_len` 18, not 19 as the claim states ("World this is
long" has 18 characters). -/
theorem C3_scenarioA_counterexample :
    analyze_document scenarioATables 10 = Except.ok [{
      id := "1", source := "src", target := "Hello<b>World this is long",
      max_len := 18, segment_len := 23, line_lengths := [5, 18],
      highlighted_target_html :=
        "Hello<br>World this<span class=\"overflow\"> is long</span><br>" }] ∧
    (18 : Nat) ≠ 19 :=
  ⟨rfl, by decide⟩

/-- C3 (amended): the target "Hello<b>World this is long" with limit 10
normalizes to the two logical lines "Hello" and "World this is long"; only
the second line (5 is within the limit, 18 exceeds it) triggers the
violation, whose `max_line_length` is 18. -/
theorem C3_scenarioA_amended :
    normalize_with_linebreaks "Hello<b>World this is long" = "Hello\nWorld this is long" ∧
    target_lines "Hello<b>World this is long" = ["Hello", "World this is long"] ∧
    ("Hello".length = 5 ∧ ¬((10 : Int) < ("Hello".length : Int))) ∧
    ("World this is long".length = 18 ∧ (10 : Int) < ("World this is long".length : Int)) ∧
    analyze_document scenarioATables 10 = Except.ok [{
      id := "1", source := "src", target := "Hello<b>World this is long",
      max_len := 18, segment_len := 23, line_lengths := [5, 18],
      highlighted_target_html :=
        "Hello<br>World this<span class=\"overflow\"> is long</span><br>" }] :=
  ⟨rfl, rfl, by decide, by decide, rfl⟩

/-- C4: for every (nonnegative) limit and every list of original lines, the
highlighted rendering of the analyzer equals the spec-side rendering: each
line in order, an empty line as a bare break, a line at or under the limit
escaped verbatim plus a break, and a longer line split exactly at the limit
into an escaped prefix and an overflow suffix with only the suffix wrapped in
the overflow class, plus a break. -/
theorem C4_highlight_matches_spec :
    ∀ (limit : Nat) (lines : List String),
      buildHighlighted (limit : Int) lines =
        String.join (lines.map (specRenderLine limit)) := by
  intro limit lines
  unfold buildHighlighted
  rw [show highlightLine ((limit : Nat) : Int) = specRenderLine limit from
    funext (fun line => highlightLine_eq_spec limit line)]

/-- C5: the locator returns `none` exactly when no row of any table
qualifies (trimmed cells containing "ID", at least three cells); a `some`
result is the first qualifying row in table order then row order, with the
ID column index the first "ID" position in the trimmed cells; and the
analysis then reads the source column immediately right of the ID column and
the target column immediately right of the source column. -/
theorem C5_table_locator_first_match :
    ∀ (tables : List (List (List String))),
      (find_bilingual_table tables = none ↔
        ∀ t ∈ tables, ∀ r ∈ t, rowQualifies r = false)
      ∧ (∀ (t : List (List String)) (ri ci : Nat),
          find_bilingual_table tables = some (t, ri, ci) →
          ∃ ti, tables.get? ti = some t ∧
            (∀ ti' t', ti' < ti → tables.get? ti' = some t' →
              ∀ r ∈ t', rowQualifies r = false) ∧
            ∃ r, t.get? ri = some r ∧ rowQualifies r = true ∧
              ci = listIndex "ID" (r.map pyStrip) ∧
              (∀ ri' r', ri' < ri → t.get? ri' = some r' → rowQualifies r' = false))
      ∧ (∀ (t : List (List String)) (ri ci : Nat) (char_limit : Int),
          find_bilingual_table tables = some (t, ri, ci) →
          ¬(((t.getD ri []).map pyStrip).length ≤ ci + 2) →
          analyze_document tables char_limit =
            analyzeRows (t.drop (ri + 1)) char_limit ci (ci + 1) (ci + 2)) :=
  fun tables =>
    ⟨find_bilingual_table_none_iff tables,
     fun t ri ci h => find_bilingual_table_some tables t ri ci h,
     fun t ri ci cl h hlen => analyze_document_run tables t ri ci cl h hlen⟩

/-- Witness for C5 on a one-table document whose second row is the header:
the locator picks table 0, row 1, ID column 1, and analysis runs on the rows
after the header with source column 2 and target column 3. -/
theorem C5_table_locator_first_match_witness :
    analyze_document [[["x", "y", "z", "w"], ["n", "ID", "Source", "Target"],
        ["1", "7 tokens", "s", "t"]]] 9 =
      analyzeRows [["1", "7 tokens", "s", "t"]] 9 1 2 3 :=
  (C5_table_locator_first_match
      [[["x", "y", "z", "w"], ["n", "ID", "Source", "Target"],
        ["1", "7 tokens", "s", "t"]]]).2.2
    [["x", "y", "z", "w"], ["n", "ID", "Source", "Target"], ["1", "7 tokens", "s", "t"]]
    1 1 9 rfl (by decide)

/-- C6: a document without a qualifying table, or one whose derived target
column index falls outside the header row, makes the analysis return the
empty violation list (no exception is modelled or needed), and the renderer
on an empty list produces a report whose summary states that no segments
exceed the limit of N characters per line. -/
theorem C6_graceful_not_found :
    (∀ (tables : List (List (List String))) (char_limit : Int),
      find_bilingual_table tables = none →
      analyze_document tables char_limit = Except.ok [])
    ∧ (∀ (tables : List (List (List String))) (t : List (List String)) (ri ci : Nat)
        (char_limit : Int),
        find_bilingual_table tables = some (t, ri, ci) →
        ((t.getD ri []).map pyStrip).length ≤ ci + 2 →
        analyze_document tables char_limit = Except.ok [])
    ∧ (∀ char_limit : Int, summaryText 0 char_limit =
        "NO SEGMENTS EXCEED THE LIMIT OF " ++ toString char_limit ++
          " CHARACTERS PER LINE.")
    ∧ (∀ (char_limit : Int) (name : String), ∃ pre post,
        build_html_report [] char_limit name =
          pre ++ summaryText 0 char_limit ++ post) :=
  ⟨fun tables cl h => analyze_document_of_none tables cl h,
   fun tables t ri ci cl h hlen => analyze_document_insufficient tables t ri ci cl h hlen,
   fun _ => rfl,
   fun cl name =>
     ⟨pagePart1 ++ toString cl ++ pagePart2 ++ VERSION ++ pagePart3 ++
        htmlEscape (osBasename name) ++ pagePart4 ++ toString cl ++ pagePart5,
      pagePart6 ++ "" ++ pagePart7,
      build_html_report_empty cl name⟩⟩

/-- Witness for C6: a document with no "ID" table and one whose header has
only three columns (target index out of range) both analyze to the empty
list, and the empty report embeds the no-violation summary. -/
theorem C6_graceful_not_found_witness :
    analyze_document [[["a", "b"]]] 5 = Except.ok [] ∧
    analyze_document [[["Num", "ID", "Source"], ["1", "x", "y"]]] 5 = Except.ok [] ∧
    (∃ pre post, build_html_report [] 5 "f.docx" = pre ++ summaryText 0 5 ++ post) :=
  ⟨C6_graceful_not_found.1 [[["a", "b"]]] 5 rfl,
   C6_graceful_not_found.2.1 [[["Num", "ID", "Source"], ["1", "x", "y"]]]
     [["Num", "ID", "Source"], ["1", "x", "y"]] 0 1 5 rfl (by decide),
   C6_graceful_not_found.2.2.2 5 "f.docx"⟩

/-- C7: counterexample — two documents whose short data row sits at
different positions (first data row vs second data row) produce the very
same `IndexError` result, so the surfaced error does not identify the row;
aborting is fatal, but the claimed row identification does not hold. -/
theorem C7_short_row_counterexample :
    analyze_document shortRowFirstTables 10 = Except.error PyError.indexError ∧
    analyze_document shortRowSecondTables 10 = Except.error PyError.indexError ∧
    analyze_document shortRowFirstTables 10 = analyze_document shortRowSecondTables 10 :=
  ⟨rfl, rfl, rfl⟩

/-- C7 (amended): a data row with fewer cells than the target column index
requires makes the row processing, and with it the whole analysis run, abort
with an index-out-of-range error — the row is not silently skipped and no
violation list is produced — but the error value carries no row position. -/
theorem C7_short_row_amended :
    (∀ (cells : List String) (char_limit : Int) (i j k : Nat),
      cells.length ≤ k →
      processRow cells char_limit i j k = Except.error PyError.indexError)
    ∧ (∀ (rows : List (List String)) (char_limit : Int) (i j k : Nat),
        (∃ r, r ∈ rows ∧ r.length ≤ k) →
        analyzeRows rows char_limit i j k = Except.error PyError.indexError) :=
  ⟨fun cells cl i j k hk => processRow_short cells cl i j k hk,
   fun rows cl i j k h => analyzeRows_short rows cl i j k h⟩

/-- Witness for C7 (amended) on the concrete malformed table. -/
theorem C7_short_row_amended_witness :
    analyzeRows [["1", "s"], ["2", "s", "t"]] 10 0 1 2 =
      Except.error PyError.indexError :=
  C7_short_row_amended.2 [["1", "s"], ["2", "s", "t"]] 10 0 1 2
    ⟨["1", "s"], by decide, by decide⟩

/-- C8: counterexample — the reply "0" (and likewise "-5") parses
successfully, is not rejected, and analysis runs with the non-positive
limit, here even producing a violation. -/
theorem C8_char_limit_counterexample :
    readCharLimit "0" = some 0 ∧ readCharLimit "-5" = some (-5) ∧
    runWithCharLimit promptDemoTables "0" =
      some (analyze_document promptDemoTables 0) ∧
    analyze_document promptDemoTables 0 = Except.ok [{
      id := "7", source := "hi", target := "abc", max_len := 3, segment_len := 3,
      line_lengths := [3],
      highlighted_target_html := "<span class=\"overflow\">abc</span><br>" }] :=
  ⟨rfl, rfl, rfl, rfl⟩

/-- C8 (amended): the program rejects the supplied character limit (and
performs no analysis) exactly when it does not parse as an integer; integer
replies — including zero and negative values — are accepted and analysis
runs with them. -/
theorem C8_char_limit_amended :
    (∀ (tables : List (List (List String))) (reply : String),
      readCharLimit reply = none → runWithCharLimit tables reply = none)
    ∧ (∀ (tables : List (List (List String))) (reply : String) (n : Int),
        readCharLimit reply = some n →
        runWithCharLimit tables reply = some (analyze_document tables n))
    ∧ readCharLimit "abc" = none ∧ readCharLimit "" = none ∧
    readCharLimit "0" = some 0 ∧ readCharLimit "-5" = some (-5) ∧
    readCharLimit " 12 " = some 12 := by
  refine ⟨?_, ?_, rfl, rfl, rfl, rfl, rfl⟩
  · intro tables reply h
    unfold runWithCharLimit
    rw [h]
  · intro tables reply n h
    unfold runWithCharLimit
    rw [h]

/-- Witness for C8 (amended): a non-integer reply stops before analysis, an
integer reply runs the analysis with the parsed value. -/
theorem C8_char_limit_amended_witness :
    runWithCharLimit promptDemoTables "abc" = none ∧
    runWithCharLimit promptDemoTables "7" = some (analyze_document promptDemoTables 7) :=
  ⟨C8_char_limit_amended.1 promptDemoTables "abc" rfl,
   C8_char_limit_amended.2.1 promptDemoTables "7" 7 rfl⟩

/-- C9: the target cell stores exactly the escaping of the record's
highlighted rendering in its hidden attribute; that attribute decodes back
to the render-time bytes; and after any sequence of edit toggles and edits,
reset restores exactly the highlighted rendering produced at render time
and leaves editing off. -/
theorem C9_reset_restores_render :
    ∀ (v : Violation) (st : CellState) (evs : List CellEvent),
      data_original_html v = htmlEscape v.highlighted_target_html
      ∧ decodeEntities (data_original_html v) = v.highlighted_target_html
      ∧ (∃ pre post, target_cell_html v = pre ++ data_original_html v ++ post)
      ∧ (runCellEvents (data_original_html v) st (evs ++ [CellEvent.reset])).content =
          v.highlighted_target_html
      ∧ (runCellEvents (data_original_html v) st (evs ++ [CellEvent.reset])).editable =
          false := by
  intro v st evs
  have hdec : decodeEntities (data_original_html v) = v.highlighted_target_html :=
    decodeEntities_htmlEscape v.highlighted_target_html
  have hrun : runCellEvents (data_original_html v) st (evs ++ [CellEvent.reset]) =
      { content := decodeEntities (data_original_html v), editable := false } := by
    unfold runCellEvents
    rw [List.foldl_append]
    rfl
  refine ⟨rfl, hdec,
    ⟨cellPart1, cellPart2 ++ v.highlighted_target_html ++ cellPart3, ?_⟩, ?_, ?_⟩
  · unfold target_cell_html
    simp [String.append_assoc]
  · rw [hrun]
    exact hdec
  · rw [hrun]

/-- C10: an empty delimiter pair is not a tag — the scanner leaves the
opener and the immediately following closer in place — so "<>", "[]" and
the curly pair survive normalization unchanged and their characters count
toward the logical line's length. -/
theorem C10_empty_pairs_preserved :
    (∀ (op cl : Char) (rest : List Char), tagCloser op = some cl →
      subTags (op :: cl :: rest) = op :: cl :: subTags rest)
    ∧ normalize_with_linebreaks "<>" = "<>"
    ∧ normalize_with_linebreaks "[]" = "[]"
    ∧ normalize_with_linebreaks "\x7b\x7d" = "\x7b\x7d"
    ∧ normalize_with_linebreaks "a<>b" = "a<>b"
    ∧ non_empty_lines_of "a<>b" = ["a<>b"] ∧ "a<>b".length = 4 :=
  ⟨fun op cl rest h => subTags_empty_pair op cl rest h,
   rfl, rfl, rfl, rfl, rfl, rfl⟩

/-- Witness for C10 at a concrete empty angle pair. -/
theorem C10_empty_pairs_preserved_witness :
    subTags ['<', '>', 'a'] = '<' :: '>' :: subTags ['a'] :=
  C10_empty_pairs_preserved.1 '<' '>' ['a'] (by decide)

end MK
